import Mathlib

/-!
Verification development for a conversational first-aid guidance service.

The service (a FastAPI app, `app.py`) walks a user through a decision tree of
emergency questions and steps stored in a graph database.  We shallowly embed
the session state machine and its collaborators:

* the graph store is abstracted by `Graph`, the three query capabilities the
  code uses (entry question, yes/no branch step, next step);
* `get_next_interaction` embeds the Python function of the same name; the
  Python function returns a dict whose `node_id` key is *absent* on
  `end`/`clarify`/`error` results, which we model with `Option Nat`;
* `chat` embeds the `/chat` request handler, including the possibility of an
  uncaught `KeyError` (modelled by `Except PyError`) when the handler reads
  the absent `node_id` key;
* `reset_if_no_response` embeds the idle-timeout task body;
* `identify_emergency` embeds the keyword classifier.

Text is handled at the level of `List Char` so that Python's
`str.lower`/`str.strip`/substring (`in`) operations have direct counterparts.
-/

namespace FirstAid

/-- Python `str.lower` restricted to the characters that occur in this
program's data: ASCII letters and the Spanish accented letters. -/
def pyLowerChar (c : Char) : Char :=
  if 'A' ≤ c ∧ c ≤ 'Z' then Char.ofNat (c.toNat + 32)
  else if c = 'Á' then 'á'
  else if c = 'É' then 'é'
  else if c = 'Í' then 'í'
  else if c = 'Ó' then 'ó'
  else if c = 'Ú' then 'ú'
  else if c = 'Ü' then 'ü'
  else if c = 'Ñ' then 'ñ'
  else c

/-- Whitespace characters removed by Python `str.strip`. -/
def pyIsSpace (c : Char) : Bool :=
  c = ' ' ∨ c = '\t' ∨ c = '\n' ∨ c = '\r' ∨ c = Char.ofNat 11 ∨ c = Char.ofNat 12

/-- Python `str.lower` on a character list. -/
def lowerL (s : List Char) : List Char := s.map pyLowerChar

/-- Python `str.strip` on a character list. -/
def stripL (s : List Char) : List Char :=
  ((s.dropWhile pyIsSpace).reverse.dropWhile pyIsSpace).reverse

/-- Does `hay` start with `needle`? -/
def startsWithL : List Char → List Char → Bool
  | [], _ => true
  | _ :: _, [] => false
  | n :: ns, h :: hs => n = h && startsWithL ns hs

/-- Python substring containment `needle in hay` on character lists. -/
def isSubstr (needle : List Char) : List Char → Bool
  | [] => startsWithL needle []
  | h :: hs => startsWithL needle (h :: hs) || isSubstr needle hs

/-- The three read-only query capabilities of the Neo4j decision graph used by
`get_next_interaction`.  Each returns a (content, node id) pair or `none` when
the Cypher query yields no usable record (for `nextStep`, also when the
`OPTIONAL MATCH` record carries a null content). -/
structure Graph where
  entryQuestion : String → Option (String × Nat)
  branchStep : Nat → String → Option (String × Nat)
  nextStep : Nat → Option (String × Nat)

/-- The dict returned by `get_next_interaction`.  `node_id = none` models a
dict in which the `"node_id"` key is absent (all `end`/`clarify`/`error`
returns in the source omit it). -/
structure Interaction where
  type : String
  content : String
  node_id : Option Nat
  is_end : Bool
deriving DecidableEq, Repr

def msg_no_evaluations : String :=
  "No se encontraron evaluaciones para esta emergencia. Por favor, busque ayuda médica."

def msg_no_step : String :=
  "No se encontró el paso siguiente para su respuesta. Por favor, busque ayuda médica."

def msg_clarify_yesno : String :=
  "Por favor, responda \x27sí\x27 o \x27no\x27 para continuar."

def msg_end_of_branch : String :=
  "Hemos llegado al final de los pasos para esta rama. Por favor, busque ayuda médica si es necesario."

def msg_error_state : String :=
  "Ocurrió un error inesperado en el flujo de la conversación."

/-- Lines 113-116 of `app.py`: classify the normalized answer text as the
relationship type to traverse (`"SI"`, `"NO"`) or `none` when ambiguous. -/
def classify_answer (response_lower : List Char) : Option String :=
  if isSubstr ("si".toList) response_lower ∨ isSubstr ("sí".toList) response_lower
      ∨ isSubstr ("yes".toList) response_lower then some "SI"
  else if isSubstr ("no".toList) response_lower ∨ isSubstr ("not".toList) response_lower then
    some "NO"
  else none

/-- Lines 118-138 of `app.py`: look up the first step following the evaluation
node along the chosen relationship; the Cypher match fails when the node id is
null, hence the `Option.bind`. -/
def branch_query (g : Graph) (last_node_id : Option Nat) (rel_type : String) : Interaction :=
  match last_node_id.bind (fun nid => g.branchStep nid rel_type) with
  | some (content, nid) => ⟨"step", content, some nid, false⟩
  | none => ⟨"end", msg_no_step, none, true⟩

/-- Embedding of `get_next_interaction` (app.py lines 74-168).
`emergency_name` is `Option` because the handler can pass Python `None`
(a Cypher match against a null name finds nothing).  `user_input_text` is
`Option` because the parameter defaults to `None`; it is only read in
scenario 2, where the handler always supplies the message text. -/
def get_next_interaction (g : Graph) (emergency_name : Option String)
    (user_input_text : Option String) (last_node_id : Option Nat)
    (last_node_type : Option String) (is_waiting_for_answer : Bool) : Interaction :=
  -- Escenario 1: first interaction for an emergency
  if last_node_id = none ∧ is_waiting_for_answer = false then
    match emergency_name.bind (fun nm => g.entryQuestion nm) with
    | some (content, nid) => ⟨"question", content, some nid, false⟩
    | none => ⟨"end", msg_no_evaluations, none, true⟩
  -- Escenario 2: the user is answering a question
  else if is_waiting_for_answer = true ∧ last_node_type = some "question" then
    match classify_answer (stripL (lowerL ((user_input_text.getD "").toList))) with
    | some rel_type => branch_query g last_node_id rel_type
    | none => ⟨"clarify", msg_clarify_yesno, none, false⟩
  -- Escenario 3: continue the step sequence
  else if last_node_type = some "step" ∧ is_waiting_for_answer = false then
    match last_node_id.bind (fun nid => g.nextStep nid) with
    | some (content, nid) => ⟨"step", content, some nid, false⟩
    | none => ⟨"end", msg_end_of_branch, none, true⟩
  -- Fallback for unexpected states
  else ⟨"error", msg_error_state, none, true⟩

/-- The keyword table of `identify_emergency`, in dict insertion order. -/
def emergency_keywords : List (String × String) :=
  [("ojo", "Cuerpo Extraño en el Ojo"),
   ("quemadura", "Quemaduras de Segundo Grado"),
   ("electrica", "Quemaduras Eléctricas"),
   ("atragantamiento", "Atragantamiento en Adultos y Niños Mayores"),
   ("convulsion", "Convulsiones (Post-Convulsión y Protección)"),
   ("diente", "Dientes Rotos o Caídos"),
   ("respirar", "Dificultad para Respirar (Leve)"),
   ("fractura", "Fracturas Evidentes o Sospechosas"),
   ("hemorragia", "Hemorragia Severa"),
   ("ahogamiento", "Ahogamiento"),
   ("cabeza", "Golpe en la Cabeza"),
   ("corte", "Cortes y Raspaduras Menores"),
   ("esguince", "Esguinces y Torceduras Leves"),
   ("picadura", "Picaduras de Insectos (No Alérgicas)"),
   ("golpe", "Golpes y Contusiones Menores"),
   ("sangrado nasal", "Sangrado Nasal"),
   ("insolacion", "Insolación Leve / Agotamiento por Calor"),
   ("hipotermia", "Hipotermia Leve"),
   ("desmayo", "Desmayo (Síncope Simple)"),
   ("rcp niños", "RCP en Niños (1 a 8 años)"),
   ("rcp bebes", "RCP en Bebés (< 1 año)"),
   ("rcp", "RCP en Adultos (Solo Manos)"),
   ("revision", "Revisión Básica de Conciencia y Respiración")]

/-- Insert a key into a length-descending list, after all keys of length ≥ its
own: processing the keys in dict order through this insert reproduces Python's
stable `sorted(keys, key=len, reverse=True)`. -/
def insertByLen (k : String) : List String → List String
  | [] => [k]
  | x :: xs => if k.length ≤ x.length then x :: insertByLen k xs else k :: x :: xs

/-- `sorted(emergency_keywords.keys(), key=len, reverse=True)` (stable). -/
def sorted_keywords : List String :=
  (emergency_keywords.map Prod.fst).foldl (fun acc k => insertByLen k acc) []

def msg_unidentified : String :=
  "No se pudo identificar la emergencia específica. Por favor, describa con más detalle o diga \x27ayuda\x27 para obtener un listado de emergencias."

/-- Embedding of `identify_emergency` (app.py lines 247-288): lowercase the
text, then return the value of the first keyword (longest first) contained in
it.  The `getD` default is never reached: the found keyword is a dict key. -/
def identify_emergency (text : String) : String :=
  let text_lower := lowerL text.toList
  match sorted_keywords.find? (fun k => isSubstr k.toList text_lower) with
  | some k => (emergency_keywords.lookup k).getD msg_unidentified
  | none => msg_unidentified

/-- The per-session entry of `session_states`. -/
structure SessionState where
  emergency : Option String
  last_node_id : Option Nat
  last_node_type : Option String
  waiting_for_answer : Bool
  last_interaction_time : Nat
deriving DecidableEq, Repr

/-- Uncaught Python exceptions the handler can raise; reading the absent
`"node_id"` key of an `end`/`clarify`/`error` interaction raises `KeyError`,
which the transport surfaces as an HTTP 500. -/
inductive PyError where
  | keyError
deriving DecidableEq, Repr

/-- The arguments of the `_generate_llm_response` call the handler makes just
before returning; the phrasing service is an opaque text transform, so a
successful request is fully described by this call. -/
structure PhrasingCall where
  raw_content : String
  is_emergency_end : Bool
  original_type : String
deriving DecidableEq, Repr

instance {ε α : Type} [DecidableEq ε] [DecidableEq α] : DecidableEq (Except ε α) := fun a b =>
  match a, b with
  | .error e1, .error e2 =>
      if h : e1 = e2 then .isTrue (congrArg Except.error h)
      else .isFalse (fun hc => h (Except.error.inj hc))
  | .ok v1, .ok v2 =>
      if h : v1 = v2 then .isTrue (congrArg Except.ok h)
      else .isFalse (fun hc => h (Except.ok.inj hc))
  | .error _, .ok _ => .isFalse (fun hc => Except.noConfusion hc)
  | .ok _, .error _ => .isFalse (fun hc => Except.noConfusion hc)

/-- Observable outcome of one `/chat` request for one session: the stored
session state afterwards, whether the conversational memory still exists,
whether an outstanding idle timer was cancelled, whether a new idle timer was
scheduled, and either the phrasing call of a normal 200 response or the
uncaught exception of a 500. -/
structure ChatOutcome where
  state : SessionState
  hasMemory : Bool
  timerCancelled : Bool
  timerScheduled : Bool
  result : Except PyError PhrasingCall
deriving DecidableEq, Repr

def reset_commands : List String := ["iniciar", "empezar", "reset", "reiniciar", "comenzar"]

def welcome_msg : String :=
  "Hola, soy tu guía de primeros auxilios. Por favor, describe brevemente la emergencia para comenzar (ej: \x27Me corté un dedo\x27, \x27Alguien se atraganta\x27)."

/-- The body of the `/chat` handler after session initialization and timer
cancellation (app.py lines 418-510).  `state` already carries the updated
`last_interaction_time`; `cancelled` records whether line 415 cancelled an
outstanding timer.  Each `Interaction` whose `node_id` is absent makes the
assignment `state["last_node_id"] = next_interaction["node_id"]` raise
`KeyError` before any further state mutation, phrasing call or timer
scheduling. -/
def chat_core (g : Graph) (state : SessionState) (mem : Bool) (cancelled : Bool)
    (text : String) : ChatOutcome :=
  let user_text_lower : List Char := stripL (lowerL text.toList)
  if user_text_lower ∈ reset_commands.map String.toList then
    -- restart the session completely
    let st : SessionState := { state with emergency := none, last_node_id := none,
                                          last_node_type := none, waiting_for_answer := false }
    { state := st, hasMemory := mem, timerCancelled := cancelled,
      timerScheduled := st.waiting_for_answer,
      result := .ok ⟨welcome_msg, false, "initial_message"⟩ }
  else if user_text_lower = "siguiente paso".toList ∧ state.last_node_type = some "step"
      ∧ state.waiting_for_answer = false then
    let ni := get_next_interaction g state.emergency none state.last_node_id
      state.last_node_type false
    match ni.node_id with
    | none =>
        { state := state, hasMemory := mem, timerCancelled := cancelled,
          timerScheduled := false, result := .error .keyError }
    | some nid =>
        let st : SessionState := { state with last_node_id := some nid,
                                              last_node_type := some ni.type,
                                              waiting_for_answer := ni.type == "question" }
        { state := st, hasMemory := mem, timerCancelled := cancelled,
          timerScheduled := st.waiting_for_answer,
          result := .ok ⟨ni.content, ni.is_end, ni.type⟩ }
  else if state.emergency = none ∨ state.last_node_type = some "end" then
    let emergency_identified := identify_emergency text
    if emergency_identified = msg_unidentified then
      let st : SessionState := { state with emergency := none, last_node_type := none,
                                            last_node_id := none, waiting_for_answer := false }
      { state := st, hasMemory := mem, timerCancelled := cancelled,
        timerScheduled := st.waiting_for_answer,
        result := .ok ⟨emergency_identified, false, "clarify"⟩ }
    else
      let st1 : SessionState := { state with emergency := some emergency_identified,
                                             last_node_id := none, last_node_type := none,
                                             waiting_for_answer := false }
      let ni := get_next_interaction g (some emergency_identified) none none none false
      match ni.node_id with
      | none =>
          { state := st1, hasMemory := mem, timerCancelled := cancelled,
            timerScheduled := false, result := .error .keyError }
      | some nid =>
          let st : SessionState := { st1 with last_node_id := some nid,
                                              last_node_type := some ni.type,
                                              waiting_for_answer := ni.type == "question" }
          { state := st, hasMemory := mem, timerCancelled := cancelled,
            timerScheduled := st.waiting_for_answer,
            result := .ok ⟨ni.content, ni.is_end, ni.type⟩ }
  else
    -- continue the flow of the current emergency
    let ni := get_next_interaction g state.emergency (some text) state.last_node_id
      state.last_node_type state.waiting_for_answer
    match ni.node_id with
    | none =>
        { state := state, hasMemory := mem, timerCancelled := cancelled,
          timerScheduled := false, result := .error .keyError }
    | some nid =>
        let st2 : SessionState := { state with last_node_id := some nid,
                                               last_node_type := some ni.type,
                                               waiting_for_answer := ni.type == "question" }
        -- app.py lines 493-496: on flow end, clear the emergency and mark "end"
        let st := if ni.is_end then
            { st2 with emergency := none, last_node_type := some "end" } else st2
        { state := st, hasMemory := mem, timerCancelled := cancelled,
          timerScheduled := st.waiting_for_answer,
          result := .ok ⟨ni.content, ni.is_end, ni.type⟩ }

/-- Embedding of the `/chat` handler (app.py lines 397-510) for one session.
`session` is the session's entry in `session_states` (absent for a new
session, which is initialized with a fresh conversational memory);
`hasTimer` says whether `timeout_tasks` holds an outstanding task for the
session, which is cancelled unconditionally at lines 413-416; `now` is the
arrival time in seconds. -/
def chat (g : Graph) (session : Option SessionState) (hasMemory hasTimer : Bool)
    (text : String) (now : Nat) : ChatOutcome :=
  match session with
  | none =>
      chat_core g ⟨none, none, none, false, now⟩ true hasTimer text
  | some s =>
      chat_core g { s with last_interaction_time := now } hasMemory hasTimer text

/-- Embedding of the body of `reset_if_no_response` after its sleep (app.py
lines 297-314): `now` is the firing time; the pair is the session's state in
`session_states` and whether its conversational memory still exists. -/
def reset_if_no_response (now : Nat) (session : Option SessionState)
    (hasMemory : Bool) : Option SessionState × Bool :=
  match session with
  | none => (none, hasMemory)
  | some s =>
      if 55 ≤ now - s.last_interaction_time then
        (some ⟨none, none, none, false, now⟩, false)
      else (some s, hasMemory)

/-- `await asyncio.sleep(60)` at app.py line 296: the task fires a fixed 60
seconds after being scheduled. -/
def timeout_delay : Nat := 60

/-- Running the idle-timeout task scheduled at `schedTime`: it fires at
`schedTime + timeout_delay`. -/
def run_timeout (schedTime : Nat) (session : Option SessionState)
    (hasMemory : Bool) : Option SessionState × Bool :=
  reset_if_no_response (schedTime + timeout_delay) session hasMemory

/-! ### Fixtures and invariants -/

/-- A graph store with no data: every query misses.  Sufficient for the
branches under test, whose outcomes do not depend on graph contents. -/
def emptyGraph : Graph := ⟨fun _ => none, fun _ _ => none, fun _ => none⟩

/-- A session that is awaiting a yes/no answer to question node 7. -/
def sAwait : SessionState := ⟨some "Hemorragia Severa", some 7, some "question", true, 0⟩

/-- Another session awaiting a yes/no answer, to question node 3. -/
def sAwait2 : SessionState := ⟨some "Ahogamiento", some 3, some "question", true, 0⟩

/-- The spec's session invariant: `awaiting_answer = true` implies the last
emitted node kind was `question`. -/
def stateInv (s : SessionState) : Prop :=
  s.waiting_for_answer = true → s.last_node_type = some "question"

/-! ### Claim theorems -/

/-- Claim C1 (code_bug evidence): the claim says every inbound `/chat` message
gets a 200-equivalent response, with resolver outcomes of kind
`clarify`/`end`/`error` never failing the request.  In the code every such
outcome omits the `"node_id"` dict key, so the handler's unconditional read
`next_interaction["node_id"]` raises `KeyError`: an awaiting-answer session
sending the ambiguous text "tal vez" gets a clarify resolver outcome and the
request dies with an uncaught exception (HTTP 500). -/
theorem claim_C1_clarify_outcome_raises_keyerror :
    (get_next_interaction emptyGraph (some "Hemorragia Severa") (some "tal vez") (some 7)
        (some "question") true).type = "clarify" ∧
    (chat emptyGraph (some sAwait) true true "tal vez" 100).result = .error .keyError := by
  decide

/-- Claim C2 (code_bug evidence): the claim says every terminal resolver
outcome reaches the phrasing step with `is_emergency_end = true`.  In the code
terminal outcomes omit `"node_id"`, so the handler raises `KeyError` before
the phrasing call: answering "no" at a question with no `NO` step yields a
terminal resolver outcome and the request errors out instead of producing a
phrasing call. -/
theorem claim_C2_terminal_outcome_never_reaches_phrasing :
    (get_next_interaction emptyGraph (some "Ahogamiento") (some "no") (some 3)
        (some "question") true).is_end = true ∧
    (chat emptyGraph (some sAwait2) true true "no" 50).result = .error .keyError := by
  decide

/-- Claim C3 (code_bug evidence): the claim says an ambiguous answer on an
awaiting-answer session yields a clarify response with the session state
unchanged.  The state is indeed left unchanged (the crash happens before any
mutation), but the user receives an uncaught `KeyError` (HTTP 500), not the
clarify message. -/
theorem claim_C3_ambiguous_answer_crashes_before_reply :
    (get_next_interaction emptyGraph (some "Hemorragia Severa") (some "quizas") (some 7)
        (some "question") true) = ⟨"clarify", msg_clarify_yesno, none, false⟩ ∧
    (chat emptyGraph (some sAwait) true true "quizas" 42).state =
      { sAwait with last_interaction_time := 42 } ∧
    (chat emptyGraph (some sAwait) true true "quizas" 42).result = .error .keyError := by
  decide

/-- Claim C5 (code_bug evidence): the claim says every terminal resolver result
puts the session in the ENDED configuration (`emergency = none`,
`last_node_type = "end"`).  In the code the `KeyError` on the absent
`"node_id"` key aborts the handler first: after answering "si" at a question
with no `SI` step (a terminal outcome), the session still has its emergency
set and `last_node_type = "question"`. -/
theorem claim_C5_terminal_outcome_does_not_enter_ended :
    (get_next_interaction emptyGraph (some "Ahogamiento") (some "si") (some 3)
        (some "question") true).is_end = true ∧
    (chat emptyGraph (some sAwait2) true true "si" 77).result = .error .keyError ∧
    (chat emptyGraph (some sAwait2) true true "si" 77).state.emergency = some "Ahogamiento" ∧
    (chat emptyGraph (some sAwait2) true true "si" 77).state.last_node_type =
      some "question" := by
  decide

/-- Claim C8 (code_bug evidence): the claim says the idle timer is cancelled
unconditionally on every message, and a new one is scheduled iff the resulting
state has `waiting_for_answer = true`.  Cancellation does happen, but when the
handler crashes on the absent `"node_id"` key (ambiguous answer "mmm"), the
resulting state still has `waiting_for_answer = true` while no timer is
scheduled — the right-to-left direction of the iff fails. -/
theorem claim_C8_waiting_session_left_without_timer :
    (chat emptyGraph (some sAwait) true true "mmm" 9).timerCancelled = true ∧
    (chat emptyGraph (some sAwait) true true "mmm" 9).state.waiting_for_answer = true ∧
    (chat emptyGraph (some sAwait) true true "mmm" 9).timerScheduled = false := by
  decide



theorem gni_shape (g : Graph) (e u : Option String) (l : Option Nat)
    (t : Option String) (w : Bool) :
    (get_next_interaction g e u l t w).node_id = none ∨
      (get_next_interaction g e u l t w).is_end = false := by
  unfold get_next_interaction branch_query
  repeat' split
  all_goals first | (left ; rfl) | (right ; rfl)


theorem gni_node_id_some_not_end (g : Graph) (e u : Option String) (l : Option Nat)
    (t : Option String) (w : Bool) (nid : Nat)
    (h : (get_next_interaction g e u l t w).node_id = some nid) :
    (get_next_interaction g e u l t w).is_end = false := by
  rcases gni_shape g e u l t w with hsh | hsh
  · rw [hsh] at h ; cases h
  · exact hsh

theorem chat_core_preserves_inv (g : Graph) (state : SessionState) (mem c : Bool)
    (text : String) (h : stateInv state) :
    stateInv (chat_core g state mem c text).state := by
  simp only [chat_core]
  repeat' split
  all_goals first
    | exact h
    | (intro hw ; exact Bool.noConfusion hw)
    | (intro hw ; simp only [beq_iff_eq] at hw ; simp [hw] ; done)
    | (intro hw ;
       have hne := gni_node_id_some_not_end g state.emergency (some text) state.last_node_id
         state.last_node_type state.waiting_for_answer _ (by assumption) ;
       simp_all)


/-- Claim C4: after every transition of the state machine (any `/chat` branch,
including the crashing `KeyError` paths, and the idle-timeout reset),
`waiting_for_answer = true` implies `last_node_type = some "question"`. -/
theorem claim_C4_awaiting_implies_question :
    (∀ (g : Graph) (session : Option SessionState) (hasMemory hasTimer : Bool)
        (text : String) (now : Nat),
        (∀ s, session = some s → stateInv s) →
        stateInv (chat g session hasMemory hasTimer text now).state) ∧
    (∀ (now : Nat) (session : Option SessionState) (mem : Bool) (s : SessionState),
        (∀ s0, session = some s0 → stateInv s0) →
        (reset_if_no_response now session mem).1 = some s → stateInv s) := by
  constructor
  · intro g session hm ht text now hinv
    cases session with
    | none => exact chat_core_preserves_inv g _ true ht text (fun hw => Bool.noConfusion hw)
    | some s => exact chat_core_preserves_inv g _ hm ht text (hinv s rfl)
  · intro now session mem s hinv heq
    cases session with
    | none => simp [reset_if_no_response] at heq
    | some s0 =>
      simp only [reset_if_no_response] at heq
      split at heq
      · simp only [Option.some.injEq] at heq
        subst heq
        intro hw ; cases hw
      · simp only [Option.some.injEq] at heq
        subst heq
        exact hinv s0 rfl

theorem claim_C4_awaiting_implies_question_witness :
    stateInv (chat emptyGraph (some sAwait) true true ("hola") 5).state ∧
    stateInv (⟨none, none, none, false, 100⟩ : SessionState) := by
  constructor
  · exact claim_C4_awaiting_implies_question.1 emptyGraph (some sAwait) true true "hola" 5
      (fun s hs => by cases hs ; intro _ ; rfl)
  · exact claim_C4_awaiting_implies_question.2 100 (some sAwait) true _
      (fun s hs => by cases hs ; intro _ ; rfl) (by decide)

theorem chat_core_reset (g : Graph) (state : SessionState) (mem c : Bool) (text : String)
    (h : stripL (lowerL text.toList) ∈ reset_commands.map String.toList) :
    chat_core g state mem c text =
      { state := { state with emergency := none, last_node_id := none,
                              last_node_type := none, waiting_for_answer := false },
        hasMemory := mem, timerCancelled := c, timerScheduled := false,
        result := .ok ⟨welcome_msg, false, "initial_message"⟩ } := by
  simp only [chat_core]
  rw [if_pos h]

/-- Claim C6: from any session state, a message whose lowercased trimmed text
is one of the fixed reset keywords yields the awaiting-emergency configuration
(emergency, last node id and last node type cleared, not awaiting an answer)
with the welcome prompt as payload, and sending a reset command again yields
the same state (up to the interaction timestamp) and the same payload. -/
theorem claim_C6_reset_idempotent :
    ∀ (g g2 : Graph) (session : Option SessionState) (hm ht hm2 ht2 : Bool)
      (text text2 : String) (now now2 : Nat),
      stripL (lowerL text.toList) ∈ reset_commands.map String.toList →
      stripL (lowerL text2.toList) ∈ reset_commands.map String.toList →
      (chat g session hm ht text now).state.emergency = none ∧
      (chat g session hm ht text now).state.last_node_id = none ∧
      (chat g session hm ht text now).state.last_node_type = none ∧
      (chat g session hm ht text now).state.waiting_for_answer = false ∧
      (chat g session hm ht text now).result =
        .ok ⟨welcome_msg, false, "initial_message"⟩ ∧
      (chat g2 (some (chat g session hm ht text now).state) hm2 ht2 text2 now2).state =
        { (chat g session hm ht text now).state with last_interaction_time := now2 } ∧
      (chat g2 (some (chat g session hm ht text now).state) hm2 ht2 text2 now2).result =
        (chat g session hm ht text now).result := by
  intro g g2 session hm ht hm2 ht2 text text2 now now2 h1 h2
  cases session with
  | none =>
      rw [chat, chat, chat_core_reset g2 _ _ _ _ h2, chat_core_reset g _ _ _ _ h1]
      simp
  | some s =>
      rw [chat, chat, chat_core_reset g2 _ _ _ _ h2, chat_core_reset g _ _ _ _ h1]
      simp

theorem claim_C6_reset_idempotent_witness :
    (chat emptyGraph (some sAwait) true true ("RESET ") 1).state.emergency = none ∧
    (chat emptyGraph (some sAwait) true true ("RESET ") 1).state.last_node_id = none ∧
    (chat emptyGraph (some sAwait) true true ("RESET ") 1).state.last_node_type = none ∧
    (chat emptyGraph (some sAwait) true true ("RESET ") 1).state.waiting_for_answer = false ∧
    (chat emptyGraph (some sAwait) true true ("RESET ") 1).result =
      .ok ⟨welcome_msg, false, "initial_message"⟩ ∧
    (chat emptyGraph (some (chat emptyGraph (some sAwait) true true ("RESET ") 1).state)
        false false ("reiniciar") 2).state =
      { (chat emptyGraph (some sAwait) true true ("RESET ") 1).state with
          last_interaction_time := 2 } ∧
    (chat emptyGraph (some (chat emptyGraph (some sAwait) true true ("RESET ") 1).state)
        false false ("reiniciar") 2).result =
      (chat emptyGraph (some sAwait) true true ("RESET ") 1).result :=
  claim_C6_reset_idempotent emptyGraph emptyGraph (some sAwait) true true false false
    "RESET " "reiniciar" 1 2 (by decide) (by decide)

/-- Claim C7: the idle-timeout task fires after a fixed 60-second delay; on
firing it is a no-op when the last activity was less than 55 seconds ago (in
particular a message at t = 56s after scheduling defeats the t = 60s expiry),
and otherwise it resets the session to the empty configuration and drops the
conversational memory. -/
theorem claim_C7_idle_timeout :
    timeout_delay = 60 ∧
    (∀ (now : Nat) (s : SessionState) (mem : Bool),
        now - s.last_interaction_time < 55 →
        reset_if_no_response now (some s) mem = (some s, mem)) ∧
    (∀ (sched : Nat) (s : SessionState) (mem : Bool),
        s.last_interaction_time = sched + 56 →
        run_timeout sched (some s) mem = (some s, mem)) ∧
    (∀ (now : Nat) (s : SessionState) (mem : Bool),
        55 ≤ now - s.last_interaction_time →
        reset_if_no_response now (some s) mem =
          (some ⟨none, none, none, false, now⟩, false)) := by
  refine ⟨rfl, ?_, ?_, ?_⟩
  · intro now s mem h
    simp only [reset_if_no_response]
    rw [if_neg (by omega)]
  · intro sched s mem h
    simp only [run_timeout, reset_if_no_response, timeout_delay]
    rw [if_neg (by omega)]
  · intro now s mem h
    simp only [reset_if_no_response]
    rw [if_pos h]

theorem claim_C7_idle_timeout_witness :
    timeout_delay = 60 ∧
    reset_if_no_response 10 (some sAwait) true = (some sAwait, true) ∧
    run_timeout 0 (some (⟨some "Ahogamiento", some 3, some "question", true, 56⟩ : SessionState))
        true =
      (some (⟨some "Ahogamiento", some 3, some "question", true, 56⟩ : SessionState), true) ∧
    reset_if_no_response 60 (some sAwait) true =
      (some (⟨none, none, none, false, 60⟩ : SessionState), false) :=
  ⟨claim_C7_idle_timeout.1,
   claim_C7_idle_timeout.2.1 10 sAwait true (by decide),
   claim_C7_idle_timeout.2.2.1 0 ⟨some "Ahogamiento", some 3, some "question", true, 56⟩ true rfl,
   claim_C7_idle_timeout.2.2.2 60 sAwait true (by decide)⟩


theorem find_some_of_mem {α : Type} (p : α → Bool) :
    ∀ (l : List α) (x : α), x ∈ l → p x = true → ∃ w, l.find? p = some w := by
  intro l
  induction l with
  | nil => intro x hx ; cases hx
  | cons a t ih =>
    intro x hx hp
    by_cases hpa : p a = true
    · exact ⟨a, List.find?_cons_of_pos t hpa⟩
    · cases hx with
      | head => exact absurd hp hpa
      | tail _ hm =>
        obtain ⟨w, hw⟩ := ih x hm hp
        exact ⟨w, by rw [List.find?_cons_of_neg t (by simpa using hpa)] ; exact hw⟩

theorem find_first_pairwise {α : Type} (p : α → Bool) (R : α → α → Prop) :
    ∀ (l : List α) (w : α), l.Pairwise R → l.find? p = some w →
      ∀ k ∈ l, p k = true → w = k ∨ R w k := by
  intro l
  induction l with
  | nil => intro w _ hf ; cases hf
  | cons a t ih =>
    intro w hpw hf k hk hp
    rcases List.pairwise_cons.mp hpw with ⟨hra, hpt⟩
    by_cases hpa : p a = true
    · rw [List.find?_cons_of_pos t hpa] at hf
      injection hf with hwa
      subst hwa
      cases hk with
      | head => exact Or.inl rfl
      | tail _ hm => exact Or.inr (hra k hm)
    · rw [List.find?_cons_of_neg t (by simpa using hpa)] at hf
      cases hk with
      | head => exact absurd hp hpa
      | tail _ hm => exact ih w hpt hf k hm hp

theorem sorted_keywords_pairwise :
    sorted_keywords.Pairwise (fun a b => b.length ≤ a.length) := by decide

theorem keys_subset_sorted :
    ∀ k ∈ emergency_keywords.map Prod.fst, k ∈ sorted_keywords := by decide


/-- Claim C9: emergency classification tests keywords longest-first — for any
input, the winning keyword is a matching keyword of maximal length among all
matching keywords — and in particular "emergencia rcp bebes en curso"
classifies to the specific infant-CPR emergency via keyword "rcp bebes",
not to the generic "rcp" one. -/
theorem claim_C9_longest_keyword_wins :
    (∀ (text k : String), k ∈ emergency_keywords.map Prod.fst →
        isSubstr k.toList (lowerL text.toList) = true →
        ∃ w, sorted_keywords.find? (fun kw => isSubstr kw.toList (lowerL text.toList)) = some w ∧
          isSubstr w.toList (lowerL text.toList) = true ∧
          k.length ≤ w.length ∧
          identify_emergency text = (emergency_keywords.lookup w).getD msg_unidentified) ∧
    identify_emergency ("emergencia rcp bebes en curso") = "RCP en Bebés (< 1 año)" := by
  constructor
  · intro text k hk hmatch
    have hk2 : k ∈ sorted_keywords := keys_subset_sorted k hk
    obtain ⟨w, hw⟩ :=
      find_some_of_mem (fun kw => isSubstr kw.toList (lowerL text.toList)) sorted_keywords k
        hk2 hmatch
    refine ⟨w, hw, by simpa using List.find?_some hw, ?_, ?_⟩
    · rcases find_first_pairwise (fun kw => isSubstr kw.toList (lowerL text.toList))
        (fun a b => b.length ≤ a.length) sorted_keywords w sorted_keywords_pairwise hw k hk2
          hmatch with heq | hle
      · exact heq ▸ le_refl _
      · exact hle
    · simp only [identify_emergency]
      rw [hw]
  · decide

theorem claim_C9_longest_keyword_wins_witness :
    ∃ w, sorted_keywords.find?
        (fun kw => isSubstr kw.toList (lowerL ("hay una hemorragia").toList)) = some w ∧
      isSubstr w.toList (lowerL ("hay una hemorragia").toList) = true ∧
      String.length "hemorragia" ≤ w.length ∧
      identify_emergency ("hay una hemorragia") =
        (emergency_keywords.lookup w).getD msg_unidentified :=
  claim_C9_longest_keyword_wins.1 "hay una hemorragia" "hemorragia" (by decide) (by decide)

/-- Claim C10: in the answer query the affirmative check takes precedence over
the negative one, and matching is by substring containment: any normalized
text containing "si", "sí" or "yes" anywhere (even inside "siguiente", even
alongside "no" as in "si no") follows the YES edge, and the NO edge is
followed exactly when a negative substring is present and no affirmative
one is. -/
theorem claim_C10_yes_precedence :
    (∀ (r : List Char),
        ((isSubstr ("si".toList) r = true ∨ isSubstr ("sí".toList) r = true ∨
            isSubstr ("yes".toList) r = true) →
          classify_answer r = some "SI") ∧
        (classify_answer r = some "NO" ↔
          ((isSubstr ("no".toList) r = true ∨ isSubstr ("not".toList) r = true) ∧
            ¬(isSubstr ("si".toList) r = true ∨ isSubstr ("sí".toList) r = true ∨
                isSubstr ("yes".toList) r = true)))) ∧
    (∀ (g : Graph) (em : Option String) (nid : Option Nat) (t : String) (rel : String),
        classify_answer (stripL (lowerL t.toList)) = some rel →
        get_next_interaction g em (some t) nid (some "question") true =
          branch_query g nid rel) ∧
    classify_answer (stripL (lowerL ("siguiente".toList))) = some "SI" ∧
    classify_answer (stripL (lowerL ("si no".toList))) = some "SI" := by
  refine ⟨?_, ?_, by decide, by decide⟩
  · intro r
    constructor
    · intro haff
      simp only [classify_answer]
      rw [if_pos haff]
    · by_cases haff : (isSubstr ("si".toList) r = true ∨ isSubstr ("sí".toList) r = true ∨
          isSubstr ("yes".toList) r = true)
      · simp only [classify_answer]
        rw [if_pos haff]
        exact iff_of_false (by decide) (fun hc => hc.2 haff)
      · by_cases hneg : (isSubstr ("no".toList) r = true ∨ isSubstr ("not".toList) r = true)
        · simp only [classify_answer]
          rw [if_neg haff, if_pos hneg]
          exact iff_of_true rfl ⟨hneg, haff⟩
        · simp only [classify_answer]
          rw [if_neg haff, if_neg hneg]
          exact iff_of_false (by decide) (fun hc => hneg hc.1)
  · intro g em nid t rel hcl
    simp only [get_next_interaction]
    rw [if_neg (by simp), if_pos (by simp)]
    simp only [Option.getD]
    rw [hcl]

theorem claim_C10_yes_precedence_witness :
    classify_answer ("si no".toList) = some "SI" ∧
    (classify_answer ("no se".toList) = some "NO" ↔
      ((isSubstr ("no".toList) ("no se".toList) = true ∨
          isSubstr ("not".toList) ("no se".toList) = true) ∧
        ¬(isSubstr ("si".toList) ("no se".toList) = true ∨
            isSubstr ("sí".toList) ("no se".toList) = true ∨
            isSubstr ("yes".toList) ("no se".toList) = true))) ∧
    get_next_interaction emptyGraph (some "Ahogamiento") (some "si claro") (some 3)
        (some "question") true =
      branch_query emptyGraph (some 3) "SI" :=
  ⟨(claim_C10_yes_precedence.1 ("si no".toList)).1 (by decide),
   (claim_C10_yes_precedence.1 ("no se".toList)).2,
   claim_C10_yes_precedence.2.1 emptyGraph (some "Ahogamiento") (some 3) "si claro" "SI"
     (by decide)⟩

end FirstAid
